import Mathlib

/-!
Shallow embedding of the candidate–job matching engine of
`src/home/views.py` (AI resume builder), together with proofs of the
claims about it.

Texts are modelled as lists of characters (`Str`).  Behaviour that the
Python code delegates to the runtime or to external libraries is
modelled by an `Env` record of oracles:
* `vec`       — the `TfidfVectorizer.fit_transform` + `cosine_similarity`
                pipeline of scikit-learn; `none` models the branch where
                vectorization raises (caught by `except: return 0.0`);
* `setList`   — the enumeration order CPython uses when a `set` is
                converted back to a `list` (`list(set(xs))`), which is
                hash-based and implementation-dependent;
* `ents`      — the optional spaCy entity extractor (`nlp`); `none`
                models the process started without the model.
Python floats are idealised as rationals (`ℚ`).
-/

namespace ResumeMatch

/-- Texts are lists of characters, mirroring Python strings. -/
abbrev Str := List Char

/-- Conversion from Lean string literals to the `Str` representation. -/
def s2l (s : String) : Str := s.data

/-- Python `str.lower()` (ASCII behaviour, which is all the code relies on). -/
def lowerStr (s : Str) : Str := s.map Char.toLower

/-- Python whitespace characters, as recognised by `str.strip` and `\s`. -/
def pyIsSpace (c : Char) : Bool :=
  c = ' ' || c = '\t' || c = '\n' || c = '\r' || c = '\x0b' || c = '\x0c'

/-- Python `not s.strip()`: true iff the string has only whitespace (or is empty). -/
def isBlank (s : Str) : Bool := s.all pyIsSpace

/-- Boolean test that `p` is a prefix of `s` (used for substring search). -/
def hasPre : Str → Str → Bool
  | [], _ => true
  | _ :: _, [] => false
  | a :: as, b :: bs => a == b && hasPre as bs

/-- Python substring test `p in s`: `p` occurs contiguously inside `s`. -/
def containsSub (p : Str) : Str → Bool
  | [] => hasPre p []
  | c :: cs => hasPre p (c :: cs) || containsSub p cs

/-- Python `', '.join`-style joining with a separator. -/
def joinSep (sep : Str) : List Str → Str
  | [] => []
  | [x] => x
  | x :: y :: xs => x ++ sep ++ joinSep sep (y :: xs)

/-- Environment of behaviours the Python code gets from the runtime and
external libraries (scikit-learn vectorization, CPython set enumeration,
optional spaCy model).  See the module docstring. -/
structure Env where
  vec : Str → Str → Option ℚ
  setList : List Str → List Str
  ents : Option (Str → List Str)

/-- The fixed skill vocabulary `JobMatcher.skill_keywords` (views.py lines 41-48). -/
def skill_keywords : List Str :=
  [s2l "python", s2l "java", s2l "javascript", s2l "react", s2l "nodejs",
   s2l "django", s2l "flask", s2l "sql", s2l "mongodb", s2l "postgresql",
   s2l "mysql", s2l "aws", s2l "azure", s2l "docker", s2l "kubernetes",
   s2l "git", s2l "machine learning", s2l "ai", s2l "data science",
   s2l "agile", s2l "scrum", s2l "devops", s2l "ci/cd", s2l "html",
   s2l "css", s2l "angular", s2l "vue", s2l "tensorflow", s2l "pytorch",
   s2l "pandas", s2l "numpy", s2l "api", s2l "rest", s2l "microservices",
   s2l "cloud computing", s2l "blockchain", s2l "cybersecurity"]

/-- `JobMatcher.extract_skills_from_text` (views.py lines 50-67): keyword
matching over the lowered text in vocabulary order, optional spaCy entity
augmentation, then `list(set(found_skills))` modelled by `env.setList`. -/
def extract_skills_from_text (env : Env) (text : Str) : List Str :=
  let text_lower := lowerStr text
  let found := skill_keywords.filter fun sk => containsSub (lowerStr sk) text_lower
  let found2 :=
    match env.ents with
    | some f => found ++ (f text).map lowerStr
    | none => found
  env.setList found2

/-! ## The experience-years regular expressions

`JobMatcher.extract_experience_years` (views.py lines 69-82) runs three
regular expressions with `re.findall` over the lowered text:
```
(\d+)\s*(?:\+)?\s*years?\s*(?:of\s*)?(?:experience|exp)
(\d+)\s*(?:\+)?\s*yrs?\s*(?:experience|exp)
(\d+)\s*(?:\+)?\s*years?\s*in
```
For these patterns the greedy backtracking engine is deterministic (no
alternative ever needs the greedy quantifiers to give back characters:
digits are never followed by a digit in the remainder of a pattern,
whitespace never by whitespace, and the optional `+`, `s`, and `of`
pieces start with characters no following piece can start with), so each
is faithfully implemented as a straight-line matcher. -/

/-- Maximal run of decimal digits at the front (`\d+` greedy). -/
def spanDigits : Str → (Str × Str)
  | [] => ([], [])
  | c :: cs =>
    if c.isDigit then
      let (ds, rest) := spanDigits cs
      (c :: ds, rest)
    else ([], c :: cs)

/-- Skip `\s*` (greedy). -/
def skipWs : Str → Str
  | [] => []
  | c :: cs => if pyIsSpace c then skipWs cs else c :: cs

/-- Drop a literal, returning the remainder on success. -/
def dropLit : Str → Str → Option Str
  | [], s => some s
  | _ :: _, [] => none
  | a :: as, b :: bs => if a == b then dropLit as bs else none

/-- Drop one optional literal character (`(?:\+)?`, `s?`). -/
def dropOptChar (c : Char) : Str → Str
  | [] => []
  | b :: bs => if b == c then bs else b :: bs

/-- Decimal value of a digit run (Python `int(match)`). -/
def digitsToNat (ds : Str) : Nat :=
  ds.foldl (fun a c => a * 10 + (c.toNat - 48)) 0

/-- Shared front of all three patterns: `(\d+)\s*(?:\+)?\s*`. -/
def matchNumPlus (cs : Str) : Option (Nat × Str) :=
  let (ds, r1) := spanDigits cs
  if ds.isEmpty then none
  else some (digitsToNat ds, skipWs (dropOptChar '+' (skipWs r1)))

/-- Tail `(?:experience|exp)` (alternation tries `experience` first). -/
def dropExpAlt (s : Str) : Option Str :=
  match dropLit (s2l "experience") s with
  | some r => some r
  | none => dropLit (s2l "exp") s

/-- Pattern 1 at the current position: `(\d+)\s*(?:\+)?\s*years?\s*(?:of\s*)?(?:experience|exp)`. -/
def matchP1 (cs : Str) : Option (Nat × Str) :=
  match matchNumPlus cs with
  | none => none
  | some (n, r) =>
    match dropLit (s2l "year") r with
    | none => none
    | some r2 =>
      let r3 := skipWs (dropOptChar 's' r2)
      let r4 :=
        match dropLit (s2l "of") r3 with
        | some t => skipWs t
        | none => r3
      match dropExpAlt r4 with
      | some r5 => some (n, r5)
      | none => none

/-- Pattern 2 at the current position: `(\d+)\s*(?:\+)?\s*yrs?\s*(?:experience|exp)`. -/
def matchP2 (cs : Str) : Option (Nat × Str) :=
  match matchNumPlus cs with
  | none => none
  | some (n, r) =>
    match dropLit (s2l "yr") r with
    | none => none
    | some r2 =>
      match dropExpAlt (skipWs (dropOptChar 's' r2)) with
      | some r3 => some (n, r3)
      | none => none

/-- Pattern 3 at the current position: `(\d+)\s*(?:\+)?\s*years?\s*in`. -/
def matchP3 (cs : Str) : Option (Nat × Str) :=
  match matchNumPlus cs with
  | none => none
  | some (n, r) =>
    match dropLit (s2l "year") r with
    | none => none
    | some r2 =>
      match dropLit (s2l "in") (skipWs (dropOptChar 's' r2)) with
      | some r3 => some (n, r3)
      | none => none

/-- Fuel-indexed `re.findall` scan: try the pattern at every position,
left to right, continuing after each non-overlapping match.  Every match
consumes at least the digit it captured, so `fuel := s.length` makes the
fuel never run out before the text does. -/
def findAllAux (m : Str → Option (Nat × Str)) : Nat → Str → List Nat
  | 0, _ => []
  | _ + 1, [] => []
  | fuel + 1, c :: cs =>
    match m (c :: cs) with
    | some (n, rest) => n :: findAllAux m fuel rest
    | none => findAllAux m fuel cs

/-- `re.findall(pattern, text)` restricted to the captured group values. -/
def findAll (m : Str → Option (Nat × Str)) (s : Str) : List Nat :=
  findAllAux m s.length s

/-- All integers collected by the three `re.findall` calls, in order
(views.py lines 77-80, the `years` list). -/
def expYearsFound (text : Str) : List Nat :=
  let lower := lowerStr text
  findAll matchP1 lower ++ findAll matchP2 lower ++ findAll matchP3 lower

/-- `JobMatcher.extract_experience_years` (views.py lines 69-82):
`max(years) if years else 0`. -/
def extract_experience_years (text : Str) : Nat :=
  (expYearsFound text).foldr Nat.max 0

/-! ## Data model of candidate profiles -/

/-- One entry of a candidate's `experience` list. -/
structure Experience where
  company : Str
  position : Str
  duration : Str
  description : Str
deriving DecidableEq

/-- One entry of a candidate's `projects` list. -/
structure Project where
  title : Str
  duration : Str
  description : Str
deriving DecidableEq

/-- One entry of a candidate's `education` list. -/
structure Education where
  degree : Str
  college : Str
  year : Str
deriving DecidableEq

/-- A candidate profile dictionary.  Absent keys default to the empty
value (`dict.get` with default), so a record with total fields is the
faithful model. -/
structure Candidate where
  about : Str
  skills : List Str
  experience : List Experience
  projects : List Project
  education : List Education
deriving DecidableEq

/-- One scored-candidate record appended by `JobMatcher.rank_candidates`
(views.py lines 135-143). -/
structure MatchResult where
  candidate : Candidate
  score : ℚ
  similarity_score : ℚ
  skill_score : ℚ
  experience_score : ℚ
  education_score : ℚ
  matched_skills : List Str
deriving DecidableEq

/-! ## Similarity scorer -/

/-- The candidate document built by the f-string in
`JobMatcher.compute_similarity_score` (views.py lines 87-92). -/
def candidate_text (c : Candidate) : Str :=
  s2l "\n        " ++ c.about ++ s2l " \n        "
    ++ joinSep (s2l " ") c.skills ++ s2l "\n        "
    ++ joinSep (s2l " ") (c.experience.map Experience.description) ++ s2l "\n        "
    ++ joinSep (s2l " ") (c.projects.map Project.description) ++ s2l "\n        "

/-- `JobMatcher.compute_similarity_score` (views.py lines 84-101): the
TF-IDF + cosine pipeline is `env.vec`; the `try/except` that maps any
vectorization failure to `0.0` is the `none` branch. -/
def compute_similarity_score (env : Env) (job_description : Str) (c : Candidate) : ℚ :=
  match env.vec job_description (candidate_text c) with
  | some q => q
  | none => 0

/-! ## Composite ranker -/

/-- `len(set(job_skills) & set([s.lower() for s in candidate_skills]))`
(views.py line 116): the number of distinct job skills that occur among
the lowered candidate skills. -/
def skill_matches_count (job_skills candidate_skills : List Str) : Nat :=
  (job_skills.dedup.filter fun s => (candidate_skills.map lowerStr).contains s).length

/-- The list comprehension `[s for s in job_skills if s.lower() in
[cs.lower() for cs in candidate_skills]]` (views.py lines 142 and 518). -/
def matched_skills_of (job_skills candidate_skills : List Str) : List Str :=
  job_skills.filter fun s => (candidate_skills.map lowerStr).contains (lowerStr s)

/-- The complementary comprehension `[s for s in job_skills if s.lower()
not in ...]` (views.py lines 519 and 581), before any truncation. -/
def missing_skills_of (job_skills candidate_skills : List Str) : List Str :=
  job_skills.filter fun s => !(candidate_skills.map lowerStr).contains (lowerStr s)

/-- The body of the scoring loop in `JobMatcher.rank_candidates`
(views.py lines 110-143), producing one `MatchResult`.  The float
constants 0.4/0.3/0.2/0.1 and 0.2 are idealised as exact rationals. -/
def scoreCandidate (env : Env) (job_description : Str) (job_skills : List Str)
    (job_experience_req : Nat) (c : Candidate) : MatchResult :=
  let similarity_score := compute_similarity_score env job_description c
  let skill_score : ℚ :=
    (skill_matches_count job_skills c.skills : ℚ) / (max job_skills.length 1 : ℚ)
  let candidate_exp := (c.experience.filter fun e => !e.company.isEmpty).length
  let experience_score : ℚ :=
    min ((candidate_exp : ℚ) / (max job_experience_req 1 : ℚ)) 1
  let education_score : ℚ :=
    min (((c.education.filter fun e => !e.degree.isEmpty).length : ℚ) * (1/5)) 1
  { candidate := c
    score := similarity_score * (2/5) + skill_score * (3/10)
      + experience_score * (1/5) + education_score * (1/10)
    similarity_score := similarity_score
    skill_score := skill_score
    experience_score := experience_score
    education_score := education_score
    matched_skills := matched_skills_of job_skills c.skills }

/-- The `scored_candidates` list of `JobMatcher.rank_candidates` in input
order, before sorting. -/
def scoredList (env : Env) (job_description : Str) (candidates_list : List Candidate) :
    List MatchResult :=
  candidates_list.map
    (scoreCandidate env job_description
      (extract_skills_from_text env job_description)
      (extract_experience_years job_description))

/-- Stable descending insertion for `sortDesc`: a new element is placed
before every already-placed element whose score is `≤` its own.  Since
`sortDesc` inserts later input elements first, this reproduces exactly
the unique sorted-and-stable permutation computed by Python's
`sorted(..., key=lambda x: x['score'], reverse=True)`. -/
def insertDesc (x : MatchResult) : List MatchResult → List MatchResult
  | [] => [x]
  | y :: ys => if y.score ≤ x.score then x :: y :: ys else y :: insertDesc x ys

/-- Stable sort, descending by `score` (Python `sorted(..., reverse=True)`). -/
def sortDesc : List MatchResult → List MatchResult
  | [] => []
  | x :: xs => insertDesc x (sortDesc xs)

/-- `JobMatcher.rank_candidates` (views.py lines 103-145). -/
def JobMatcher.rank_candidates (env : Env) (job_description : Str)
    (candidates_list : List Candidate) : List MatchResult :=
  sortDesc (scoredList env job_description candidates_list)

/-! ## Match explainer -/

/-- First baseline recommendation (views.py line 558). -/
def recBase1 : Str := s2l "Highlight relevant technical skills prominently in your summary section"

/-- Second baseline recommendation (views.py line 559). -/
def recBase2 : Str := s2l "Use action verbs and quantify achievements with specific metrics"

/-- Third baseline recommendation (views.py line 560). -/
def recBase3 : Str := s2l "Tailor your project descriptions to match the job requirements"

/-- The skills-overlap recommendation line (views.py line 564). -/
def recSkillsLine (found_skills : List Str) : Str :=
  s2l "Emphasize your experience with: " ++ joinSep (s2l ", ") (found_skills.take 3)

/-- The Agile-specific recommendation line (views.py line 567). -/
def recAgileLine : Str := s2l "Highlight your experience with Agile methodologies"

/-- The leadership-specific recommendation line (views.py line 570). -/
def recLeadLine : Str := s2l "Emphasize leadership experience and mentoring capabilities"

/-- `generate_job_recommendations` (views.py lines 555-572): three fixed
baseline items, then three conditional appends in program order. -/
def generate_job_recommendations (job_description : Str) (found_skills : List Str) :
    List Str :=
  let recommendations := [recBase1, recBase2, recBase3]
  let recommendations :=
    if !found_skills.isEmpty then recommendations ++ [recSkillsLine found_skills]
    else recommendations
  let recommendations :=
    if containsSub (s2l "agile") (lowerStr job_description)
        || containsSub (s2l "scrum") (lowerStr job_description) then
      recommendations ++ [recAgileLine]
    else recommendations
  let recommendations :=
    if containsSub (s2l "lead") (lowerStr job_description)
        || containsSub (s2l "senior") (lowerStr job_description) then
      recommendations ++ [recLeadLine]
    else recommendations
  recommendations

/-- The missing-skills suggestion line (views.py line 583). -/
def sugSkillsLine (missing_skills : List Str) : Str :=
  s2l "Consider adding these skills: " ++ joinSep (s2l ", ") (missing_skills.take 3)

/-- The add-more-projects suggestion (views.py line 586). -/
def sugProjectsLine : Str :=
  s2l "Add more project examples to demonstrate your technical abilities"

/-- The add-a-summary suggestion (views.py line 589). -/
def sugSummaryLine : Str :=
  s2l "Add a compelling professional summary highlighting your key strengths"

/-- `generate_improvement_suggestions` (views.py lines 574-591). -/
def generate_improvement_suggestions (env : Env) (job_description : Str)
    (resume_data : Candidate) : List Str :=
  let job_skills := extract_skills_from_text env job_description
  let missing_skills := missing_skills_of job_skills resume_data.skills
  let suggestions : List Str := []
  let suggestions :=
    if !missing_skills.isEmpty then suggestions ++ [sugSkillsLine missing_skills]
    else suggestions
  let suggestions :=
    if resume_data.projects.length < 2 then suggestions ++ [sugProjectsLine]
    else suggestions
  let suggestions :=
    if isBlank resume_data.about then suggestions ++ [sugSummaryLine]
    else suggestions
  suggestions.take 4

/-! ## Endpoint views

Each view returns either a success payload or a structured error: JSON
`{'success': False, 'error': msg}` is the `fail` constructor,
`{'success': True, ...}` the `ok` constructor.  The request body is an
`Except`: the `error` case models `json.loads` (or any other statement of
the `try` block's prefix) raising, which the `except Exception as e`
handler converts to a failure response carrying `str(e)`. -/

/-- Outcome of a view: structured success payload or structured error. -/
inductive Response (α : Type) : Type where
  | ok : α → Response α
  | fail : Str → Response α
deriving DecidableEq

/-- Request body of `ai_analyze_job`. -/
structure AnalyzeReq where
  job_description : Str
deriving DecidableEq

/-- Success payload of `ai_analyze_job` (views.py lines 430-435). -/
structure AnalyzeOut where
  key_skills : List Str
  recommendations : List Str
  experience_years : Nat
deriving DecidableEq

/-- `ai_analyze_job` (views.py lines 411-438). -/
def ai_analyze_job (env : Env) (post : Bool) (body : Except Str AnalyzeReq) :
    Response AnalyzeOut :=
  if !post then .fail (s2l "Invalid request method")
  else
    match body with
    | .error e => .fail e
    | .ok data =>
      if isBlank data.job_description then
        .fail (s2l "Job description is required")
      else
        let found_skills := extract_skills_from_text env data.job_description
        .ok { key_skills := found_skills.take 8
              recommendations := generate_job_recommendations data.job_description found_skills
              experience_years := extract_experience_years data.job_description }

/-- Request body of the `rank_candidates` view. -/
structure RankReq where
  job_description : Str
  candidates : List Candidate
deriving DecidableEq

/-- Success payload of the `rank_candidates` view (views.py lines 489-494). -/
structure RankOut where
  ranked_candidates : List MatchResult
  total_candidates : Nat
  avg_score : ℚ
deriving DecidableEq

/-- `np.mean` over a list of scores. -/
def np_mean (l : List ℚ) : ℚ := l.sum / (l.length : ℚ)

/-- `np.mean([r['score'] for r in ranked_results]) if ranked_results else 0`
(views.py line 493). -/
def avg_score_of (ranked_results : List MatchResult) : ℚ :=
  if ranked_results.isEmpty then 0
  else np_mean (ranked_results.map MatchResult.score)

/-- The `rank_candidates` view (views.py lines 472-497). -/
def rank_candidates (env : Env) (post : Bool) (body : Except Str RankReq) :
    Response RankOut :=
  if !post then .fail (s2l "Invalid request method")
  else
    match body with
    | .error e => .fail e
    | .ok data =>
      if data.job_description.isEmpty || data.candidates.isEmpty then
        .fail (s2l "Job description and candidates are required")
      else
        let ranked_results := JobMatcher.rank_candidates env data.job_description data.candidates
        .ok { ranked_candidates := ranked_results.take 10
              total_candidates := data.candidates.length
              avg_score := avg_score_of ranked_results }

/-- Request body of the `match_resume_to_job` view; `resume_data := none`
models a missing key or an empty (hence falsy) dictionary. -/
structure MatchReq where
  job_description : Str
  resume_data : Option Candidate
deriving DecidableEq

/-- Success payload of `match_resume_to_job` (views.py lines 521-527). -/
structure MatchOut where
  match_score : ℚ
  matched_skills : List Str
  missing_skills : List Str
  improvement_suggestions : List Str
deriving DecidableEq

/-- Python `round(x, nd)` idealised on rationals (Python rounds floats
half-to-even; the difference can only show on exact ties). -/
def pyRound (q : ℚ) (nd : Nat) : ℚ :=
  ((round (q * 10 ^ nd) : ℤ) : ℚ) / 10 ^ nd

/-- `match_resume_to_job` (views.py lines 499-530). -/
def match_resume_to_job (env : Env) (post : Bool) (body : Except Str MatchReq) :
    Response MatchOut :=
  if !post then .fail (s2l "Invalid request method")
  else
    match body with
    | .error e => .fail e
    | .ok data =>
      if data.job_description.isEmpty then
        .fail (s2l "Job description and resume data are required")
      else
        match data.resume_data with
        | none => .fail (s2l "Job description and resume data are required")
        | some resume =>
          let similarity_score := compute_similarity_score env data.job_description resume
          let job_skills := extract_skills_from_text env data.job_description
          let resume_skills := resume.skills
          .ok { match_score := pyRound (similarity_score * 100) 2
                matched_skills := matched_skills_of job_skills resume_skills
                missing_skills := (missing_skills_of job_skills resume_skills).take 5
                improvement_suggestions :=
                  generate_improvement_suggestions env data.job_description resume }

/-! ## Concrete environments and inputs for instantiating theorems -/

/-- An environment whose vectorizer always fails (the `except` branch),
with no spaCy model, and whose set enumeration keeps first-occurrence
order — one admissible behaviour of CPython's `list(set(xs))`. -/
def env0 : Env := ⟨fun _ _ => none, fun l => l.dedup, none⟩

/-- Like `env0` but enumerating sets in reversed first-occurrence order —
an equally admissible behaviour of CPython's hash-based, seed-dependent
set iteration. -/
def envRev : Env := ⟨fun _ _ => none, fun l => l.dedup.reverse, none⟩

/-- A small concrete candidate profile. -/
def candW : Candidate :=
  { about := s2l "builds things"
    skills := [s2l "Python"]
    experience := [⟨s2l "Acme", s2l "dev", s2l "2y", s2l "backend work"⟩]
    projects := []
    education := [] }

/-- Descending score order between match results, as a relation. -/
def scoreGe (a b : MatchResult) : Prop := b.score ≤ a.score

/-! ## Lemmas about the stable descending sort -/

theorem insertDesc_perm (x : MatchResult) (l : List MatchResult) :
    List.Perm (insertDesc x l) (x :: l) := by
  induction l with
  | nil => exact List.Perm.refl _
  | cons y ys ih =>
    simp only [insertDesc]
    split
    · exact List.Perm.refl _
    · exact List.Perm.trans (List.Perm.cons y ih) (List.Perm.swap x y ys)

theorem sortDesc_perm (l : List MatchResult) : List.Perm (sortDesc l) l := by
  induction l with
  | nil => exact List.Perm.refl _
  | cons x xs ih =>
    exact List.Perm.trans (insertDesc_perm x (sortDesc xs)) (List.Perm.cons x ih)

theorem pairwise_insertDesc {x : MatchResult} {l : List MatchResult}
    (h : l.Pairwise scoreGe) : (insertDesc x l).Pairwise scoreGe := by
  induction l with
  | nil => simp [insertDesc, scoreGe]
  | cons y ys ih =>
    rcases List.pairwise_cons.1 h with ⟨hy, hys⟩
    simp only [insertDesc]
    split
    · rename_i hle
      refine List.pairwise_cons.2 ⟨?_, h⟩
      intro z hz
      rcases List.mem_cons.1 hz with rfl | hz'
      · exact hle
      · exact le_trans (hy z hz') hle
    · rename_i hgt
      refine List.pairwise_cons.2 ⟨?_, ih hys⟩
      intro z hz
      rcases List.mem_cons.1 ((insertDesc_perm x ys).mem_iff.1 hz) with rfl | hz'
      · exact le_of_not_le hgt
      · exact hy z hz'

theorem sortDesc_pairwise (l : List MatchResult) : (sortDesc l).Pairwise scoreGe := by
  induction l with
  | nil => exact List.Pairwise.nil
  | cons x xs ih => exact pairwise_insertDesc ih

theorem filter_insertDesc (x : MatchResult) (l : List MatchResult) (q : ℚ) :
    (insertDesc x l).filter (fun r => decide (r.score = q)) =
      if x.score = q then x :: l.filter (fun r => decide (r.score = q))
      else l.filter (fun r => decide (r.score = q)) := by
  induction l with
  | nil => by_cases hx : x.score = q <;> simp [insertDesc, List.filter_cons, hx]
  | cons y ys ih =>
    simp only [insertDesc]
    split
    · rename_i hle
      by_cases hx : x.score = q <;> simp [List.filter_cons, hx]
    · rename_i hgt
      by_cases hx : x.score = q
      · have hy : ¬y.score = q := fun h => hgt (le_of_eq (h.trans hx.symm))
        simp [List.filter_cons, hx, hy, ih]
      · by_cases hy : y.score = q <;> simp [List.filter_cons, hx, hy, ih]

theorem filter_sortDesc (l : List MatchResult) (q : ℚ) :
    (sortDesc l).filter (fun r => decide (r.score = q)) =
      l.filter (fun r => decide (r.score = q)) := by
  induction l with
  | nil => rfl
  | cons x xs ih =>
    simp only [sortDesc]
    rw [filter_insertDesc, ih, List.filter_cons]
    by_cases hx : x.score = q <;> simp [hx]

/-! ## Lemmas about `max(years)` as a fold -/

theorem le_foldr_max {l : List Nat} {y : Nat} (hy : y ∈ l) : y ≤ l.foldr Nat.max 0 := by
  induction l with
  | nil => cases hy
  | cons x xs ih =>
    rcases List.mem_cons.1 hy with rfl | h
    · exact Nat.le_max_left _ _
    · exact le_trans (ih h) (Nat.le_max_right _ _)

theorem foldr_max_mem : ∀ {l : List Nat}, l ≠ [] → l.foldr Nat.max 0 ∈ l
  | [], h => absurd rfl h
  | [x], _ => by simp
  | x :: z :: zs, _ => by
    have ih := foldr_max_mem (l := z :: zs) (by simp)
    show max x ((z :: zs).foldr Nat.max 0) ∈ x :: z :: zs
    rcases max_choice x ((z :: zs).foldr Nat.max 0) with h | h
    · rw [h]
      exact List.mem_cons_self _ _
    · rw [h]
      exact List.mem_cons_of_mem _ ih

/-! ## Claim C1 -/

/-- C1: `rank_candidates` returns one `MatchResult` per input candidate
(the output is a permutation of the per-candidate scored list, so in
particular has the same length), is sorted in non-increasing order of
`score`, and is stable: for every score value, the results carrying that
score appear in exactly their input order. -/
theorem rank_candidates_sorted_stable (env : Env) (jd : Str) (cands : List Candidate) :
    (JobMatcher.rank_candidates env jd cands).length = cands.length ∧
    List.Perm (JobMatcher.rank_candidates env jd cands) (scoredList env jd cands) ∧
    (JobMatcher.rank_candidates env jd cands).Pairwise scoreGe ∧
    ∀ q : ℚ,
      (JobMatcher.rank_candidates env jd cands).filter (fun r => decide (r.score = q)) =
        (scoredList env jd cands).filter (fun r => decide (r.score = q)) := by
  unfold JobMatcher.rank_candidates
  refine ⟨?_, sortDesc_perm _, sortDesc_pairwise _, fun q => filter_sortDesc _ q⟩
  rw [(sortDesc_perm _).length_eq, scoredList, List.length_map]

/-! ## Claim C5 -/

/-- C5: `extract_experience_years` returns the maximum integer found
across all pattern matches (an upper bound of the collected list that is
itself a member when the list is non-empty), returns 0 when no pattern
matches, and returns 5 on the spec's example. -/
theorem extract_experience_years_spec :
    extract_experience_years (s2l "5 years of experience, 3 years in management") = 5 ∧
    ∀ text : Str,
      (expYearsFound text = [] → extract_experience_years text = 0) ∧
      (∀ y ∈ expYearsFound text, y ≤ extract_experience_years text) ∧
      (expYearsFound text ≠ [] → extract_experience_years text ∈ expYearsFound text) := by
  refine ⟨by decide, fun text => ⟨?_, ?_, ?_⟩⟩
  · intro h
    rw [extract_experience_years, h]
    rfl
  · intro y hy
    exact le_foldr_max hy
  · intro h
    exact foldr_max_mem h

/-- Witness for C5: at the spec's example input, 3 is among the collected
match values and is bounded by the returned maximum. -/
theorem extract_experience_years_spec_witness :
    3 ≤ extract_experience_years (s2l "5 years of experience, 3 years in management") :=
  (extract_experience_years_spec.2 _).2.1 3 (by decide)

/-! ## Component bounds for the composite score -/

theorem compute_similarity_score_range (env : Env) (jd : Str) (c : Candidate)
    (hvec : ∀ q, env.vec jd (candidate_text c) = some q → 0 ≤ q ∧ q ≤ 1) :
    0 ≤ compute_similarity_score env jd c ∧ compute_similarity_score env jd c ≤ 1 := by
  unfold compute_similarity_score
  cases hv : env.vec jd (candidate_text c) with
  | none => norm_num
  | some q => exact hvec q hv

theorem skill_matches_count_le (job_skills cs : List Str) :
    skill_matches_count job_skills cs ≤ job_skills.length :=
  le_trans (List.length_filter_le _ _) (List.dedup_sublist _).length_le

theorem div_max_one_bounds {m n : ℕ} (h : m ≤ n) :
    0 ≤ (m : ℚ) / (max (n : ℚ) 1) ∧ (m : ℚ) / (max (n : ℚ) 1) ≤ 1 := by
  have hpos : (0 : ℚ) < max (n : ℚ) 1 := lt_of_lt_of_le one_pos (le_max_right _ _)
  refine ⟨div_nonneg (Nat.cast_nonneg m) (le_of_lt hpos), ?_⟩
  rw [div_le_one hpos]
  calc (m : ℚ) ≤ (n : ℚ) := by exact_mod_cast h
    _ ≤ max (n : ℚ) 1 := le_max_left _ _

theorem min_div_one_bounds (m req : ℕ) :
    0 ≤ min ((m : ℚ) / (max (req : ℚ) 1)) 1 ∧ min ((m : ℚ) / (max (req : ℚ) 1)) 1 ≤ 1 :=
  ⟨le_min (div_nonneg (Nat.cast_nonneg m)
      (le_trans zero_le_one (le_max_right _ _))) zero_le_one,
   min_le_right _ _⟩

theorem min_mul_fifth_bounds (n : ℕ) :
    0 ≤ min ((n : ℚ) * (1/5)) 1 ∧ min ((n : ℚ) * (1/5)) 1 ≤ 1 :=
  ⟨le_min (mul_nonneg (Nat.cast_nonneg n) (by norm_num)) zero_le_one, min_le_right _ _⟩

theorem scoreCandidate_candidate (env : Env) (jd : Str) (js : List Str) (req : Nat)
    (c : Candidate) : (scoreCandidate env jd js req c).candidate = c := rfl

theorem scoreCandidate_similarity (env : Env) (jd : Str) (js : List Str) (req : Nat)
    (c : Candidate) :
    (scoreCandidate env jd js req c).similarity_score = compute_similarity_score env jd c := rfl

theorem scoreCandidate_skill_score (env : Env) (jd : Str) (js : List Str) (req : Nat)
    (c : Candidate) :
    (scoreCandidate env jd js req c).skill_score =
      (skill_matches_count js c.skills : ℚ) / (max js.length 1 : ℚ) := rfl

theorem scoreCandidate_experience (env : Env) (jd : Str) (js : List Str) (req : Nat)
    (c : Candidate) :
    (scoreCandidate env jd js req c).experience_score =
      min (((c.experience.filter fun e => !e.company.isEmpty).length : ℚ)
        / (max (req : ℚ) 1)) 1 := rfl

theorem scoreCandidate_education (env : Env) (jd : Str) (js : List Str) (req : Nat)
    (c : Candidate) :
    (scoreCandidate env jd js req c).education_score =
      min (((c.education.filter fun e => !e.degree.isEmpty).length : ℚ) * (1/5)) 1 := rfl

theorem scoreCandidate_score_eq (env : Env) (jd : Str) (js : List Str) (req : Nat)
    (c : Candidate) :
    (scoreCandidate env jd js req c).score =
      (scoreCandidate env jd js req c).similarity_score * (2/5)
      + (scoreCandidate env jd js req c).skill_score * (3/10)
      + (scoreCandidate env jd js req c).experience_score * (1/5)
      + (scoreCandidate env jd js req c).education_score * (1/10) := rfl

/-! ## Claim C2 -/

/-- C2: every result produced by `rank_candidates` satisfies the
composite-score formula `score = 0.4·similarity + 0.3·skill +
0.2·experience + 0.1·education` with the claimed component formulas, and
— given that the external vectorizer yields similarities in `[0,1]` —
every component and the composite score lie in `[0,1]`. -/
theorem rank_scores_formula_and_bounds (env : Env) (jd : Str) (cands : List Candidate)
    (hvec : ∀ t q, env.vec jd t = some q → 0 ≤ q ∧ q ≤ 1) :
    ∀ r ∈ JobMatcher.rank_candidates env jd cands,
      r.score = 2/5 * r.similarity_score + 3/10 * r.skill_score
          + 1/5 * r.experience_score + 1/10 * r.education_score ∧
      r.skill_score =
        (skill_matches_count (extract_skills_from_text env jd) r.candidate.skills : ℚ)
          / (max (extract_skills_from_text env jd).length 1 : ℚ) ∧
      r.experience_score =
        min (((r.candidate.experience.filter fun e => !e.company.isEmpty).length : ℚ)
          / (max (extract_experience_years jd : ℚ) 1)) 1 ∧
      r.education_score =
        min (((r.candidate.education.filter fun e => !e.degree.isEmpty).length : ℚ) * (1/5)) 1 ∧
      0 ≤ r.similarity_score ∧ r.similarity_score ≤ 1 ∧
      0 ≤ r.skill_score ∧ r.skill_score ≤ 1 ∧
      0 ≤ r.experience_score ∧ r.experience_score ≤ 1 ∧
      0 ≤ r.education_score ∧ r.education_score ≤ 1 ∧
      0 ≤ r.score ∧ r.score ≤ 1 := by
  intro r hr
  unfold JobMatcher.rank_candidates at hr
  replace hr := (sortDesc_perm _).mem_iff.1 hr
  rw [scoredList] at hr
  obtain ⟨c, hc, rfl⟩ := List.mem_map.1 hr
  have hsim := compute_similarity_score_range env jd c (fun q hq => hvec _ q hq)
  have hskill := div_max_one_bounds (n := (extract_skills_from_text env jd).length)
    (skill_matches_count_le (extract_skills_from_text env jd) c.skills)
  have hexp := min_div_one_bounds
    ((c.experience.filter fun e => !e.company.isEmpty).length) (extract_experience_years jd)
  have hedu := min_mul_fifth_bounds ((c.education.filter fun e => !e.degree.isEmpty).length)
  refine ⟨?_, ?_, ?_, ?_, ?_, ?_, ?_, ?_, ?_, ?_, ?_, ?_, ?_, ?_⟩
  · rw [scoreCandidate_score_eq]
    ring
  · rw [scoreCandidate_skill_score, scoreCandidate_candidate]
  · rw [scoreCandidate_experience, scoreCandidate_candidate]
  · rw [scoreCandidate_education, scoreCandidate_candidate]
  · rw [scoreCandidate_similarity]
    exact hsim.1
  · rw [scoreCandidate_similarity]
    exact hsim.2
  · rw [scoreCandidate_skill_score]
    exact hskill.1
  · rw [scoreCandidate_skill_score]
    exact hskill.2
  · rw [scoreCandidate_experience]
    exact hexp.1
  · rw [scoreCandidate_experience]
    exact hexp.2
  · rw [scoreCandidate_education]
    exact hedu.1
  · rw [scoreCandidate_education]
    exact hedu.2
  · rw [scoreCandidate_score_eq, scoreCandidate_similarity, scoreCandidate_skill_score,
      scoreCandidate_experience, scoreCandidate_education]
    have h1 := hsim.1
    have h2 := hskill.1
    have h3 := hexp.1
    have h4 := hedu.1
    linarith
  · rw [scoreCandidate_score_eq, scoreCandidate_similarity, scoreCandidate_skill_score,
      scoreCandidate_experience, scoreCandidate_education]
    have h1 := hsim.2
    have h2 := hskill.2
    have h3 := hexp.2
    have h4 := hedu.2
    linarith

/-- Witness for C2: at a concrete environment, job text and candidate,
the produced composite score is in `[0,1]`. -/
theorem rank_scores_formula_and_bounds_witness :
    0 ≤ (scoreCandidate env0 (s2l "python developer")
        (extract_skills_from_text env0 (s2l "python developer"))
        (extract_experience_years (s2l "python developer")) candW).score ∧
      (scoreCandidate env0 (s2l "python developer")
        (extract_skills_from_text env0 (s2l "python developer"))
        (extract_experience_years (s2l "python developer")) candW).score ≤ 1 := by
  have hmem : (scoreCandidate env0 (s2l "python developer")
      (extract_skills_from_text env0 (s2l "python developer"))
      (extract_experience_years (s2l "python developer")) candW)
      ∈ JobMatcher.rank_candidates env0 (s2l "python developer") [candW] := by
    rw [show JobMatcher.rank_candidates env0 (s2l "python developer") [candW] =
        [scoreCandidate env0 (s2l "python developer")
          (extract_skills_from_text env0 (s2l "python developer"))
          (extract_experience_years (s2l "python developer")) candW] from rfl]
    exact List.mem_singleton_self _
  obtain ⟨-, -, -, -, -, -, -, -, -, -, -, -, hs0, hs1⟩ :=
    rank_scores_formula_and_bounds env0 (s2l "python developer") [candW]
      (fun t q hq => nomatch hq) _ hmem
  exact ⟨hs0, hs1⟩

/-! ## Claim C4 -/

/-- C4: `compute_similarity_score` returns a value in `[0,1]` whenever
the external vectorizer does (its cosine-similarity contract), and on any
vectorization failure it returns exactly 0 instead of raising — the
function is total. -/
theorem compute_similarity_score_spec (env : Env) (jd : Str) (c : Candidate)
    (hvec : ∀ q, env.vec jd (candidate_text c) = some q → 0 ≤ q ∧ q ≤ 1) :
    (0 ≤ compute_similarity_score env jd c ∧ compute_similarity_score env jd c ≤ 1) ∧
    (env.vec jd (candidate_text c) = none → compute_similarity_score env jd c = 0) := by
  refine ⟨compute_similarity_score_range env jd c hvec, ?_⟩
  intro h
  unfold compute_similarity_score
  rw [h]

/-- Witness for C4: with a vectorizer that always fails, the similarity
is exactly 0, and in particular non-negative. -/
theorem compute_similarity_score_spec_witness :
    compute_similarity_score env0 (s2l "job") candW = 0 ∧
    0 ≤ compute_similarity_score env0 (s2l "job") candW :=
  ⟨(compute_similarity_score_spec env0 (s2l "job") candW (fun _ hq => nomatch hq)).2 rfl,
   (compute_similarity_score_spec env0 (s2l "job") candW (fun _ hq => nomatch hq)).1.1⟩

/-! ## Claim C6 -/

/-- C6: every failure of the three matching views is the structured
`fail` result (JSON `{'success': False, 'error': msg}`): a blank job
description fails `ai_analyze_job`; an empty job description or empty
candidate list fails the `rank_candidates` view; a missing input fails
`match_resume_to_job`; and an exception raised inside the `try` block
(modelled by an `error` body) is converted to a `fail` result carrying
its message, at each of the three operation boundaries. -/
theorem views_error_contract (env : Env) (e : Str)
    (a : AnalyzeReq) (rq : RankReq) (m : MatchReq) :
    (isBlank a.job_description = true →
      ai_analyze_job env true (.ok a) = .fail (s2l "Job description is required")) ∧
    ((rq.job_description.isEmpty || rq.candidates.isEmpty) = true →
      rank_candidates env true (.ok rq) =
        .fail (s2l "Job description and candidates are required")) ∧
    ((m.job_description.isEmpty || m.resume_data.isNone) = true →
      match_resume_to_job env true (.ok m) =
        .fail (s2l "Job description and resume data are required")) ∧
    ai_analyze_job env true (.error e) = .fail e ∧
    rank_candidates env true (.error e) = .fail e ∧
    match_resume_to_job env true (.error e) = .fail e := by
  refine ⟨?_, ?_, ?_, rfl, rfl, rfl⟩
  · intro h
    simp [ai_analyze_job, h]
  · intro h
    simp [rank_candidates, h]
  · intro h
    rcases (Bool.or_eq_true _ _).mp h with hj | hr
    · simp [match_resume_to_job, hj]
    · have hr' : m.resume_data = none := Option.isNone_iff_eq_none.1 hr
      by_cases hj : m.job_description.isEmpty = true <;>
        simp [match_resume_to_job, hj, hr']

/-- Witness for C6: the three validation failures and the exception
conversion at concrete inputs. -/
theorem views_error_contract_witness :
    ai_analyze_job env0 true (.ok ⟨s2l "   "⟩) = .fail (s2l "Job description is required") ∧
    rank_candidates env0 true (.ok ⟨[], []⟩) =
      .fail (s2l "Job description and candidates are required") ∧
    match_resume_to_job env0 true (.ok ⟨[], none⟩) =
      .fail (s2l "Job description and resume data are required") ∧
    ai_analyze_job env0 true (.error (s2l "boom")) = .fail (s2l "boom") := by
  have h := views_error_contract env0 (s2l "boom") ⟨s2l "   "⟩ ⟨[], []⟩ ⟨[], none⟩
  exact ⟨h.1 (by decide), h.2.1 (by decide), h.2.2.1 (by decide), h.2.2.2.1⟩

/-! ## Claim C7 -/

theorem rank_candidates_length (env : Env) (jd : Str) (cands : List Candidate) :
    (JobMatcher.rank_candidates env jd cands).length = cands.length := by
  unfold JobMatcher.rank_candidates
  rw [(sortDesc_perm _).length_eq, scoredList, List.length_map]

theorem avg_score_of_rank (env : Env) (jd : Str) (cands : List Candidate)
    (h : cands ≠ []) :
    avg_score_of (JobMatcher.rank_candidates env jd cands) =
      (cands.map fun c =>
        (scoreCandidate env jd (extract_skills_from_text env jd)
          (extract_experience_years jd) c).score).sum / (cands.length : ℚ) := by
  have hperm : List.Perm (JobMatcher.rank_candidates env jd cands) (scoredList env jd cands) := by
    unfold JobMatcher.rank_candidates
    exact sortDesc_perm _
  have hne : JobMatcher.rank_candidates env jd cands ≠ [] := by
    intro h0
    exact h (List.length_eq_zero.1 (by rw [← rank_candidates_length env jd cands, h0]; rfl))
  rw [avg_score_of, if_neg (by simp [hne]), np_mean,
    (hperm.map MatchResult.score).sum_eq, List.length_map,
    hperm.length_eq, scoredList, List.map_map, List.length_map]
  rfl

/-- C7: on valid input the `rank_candidates` view succeeds with the first
10 results of the ranking, `total_candidates` equal to the number of
input candidates, and `avg_score` the arithmetic mean of all candidates'
scores (not only the returned 10); ranking an empty candidate list gives
an empty result, and the view's average of an empty result list is the
defined value 0. -/
theorem rank_candidates_view_success (env : Env) (data : RankReq)
    (h1 : data.job_description ≠ []) (h2 : data.candidates ≠ []) :
    rank_candidates env true (.ok data) = .ok
      { ranked_candidates :=
          (JobMatcher.rank_candidates env data.job_description data.candidates).take 10
        total_candidates := data.candidates.length
        avg_score := (data.candidates.map fun c =>
            (scoreCandidate env data.job_description
              (extract_skills_from_text env data.job_description)
              (extract_experience_years data.job_description) c).score).sum
          / (data.candidates.length : ℚ) } ∧
    (∀ jd, JobMatcher.rank_candidates env jd [] = []) ∧
    avg_score_of [] = 0 := by
  refine ⟨?_, fun jd => rfl, rfl⟩
  rw [rank_candidates]
  simp only [Bool.not_true, Bool.false_eq_true, if_false]
  rw [if_neg (by simp [h1, h2])]
  rw [avg_score_of_rank env data.job_description data.candidates h2]

/-- Witness for C7: the empty-list clauses at a concrete environment,
obtained by applying the success theorem at a concrete valid request. -/
theorem rank_candidates_view_success_witness :
    JobMatcher.rank_candidates env0 (s2l "python") [] = [] ∧ avg_score_of [] = 0 := by
  have h := rank_candidates_view_success env0 ⟨s2l "python", [candW]⟩
    (by decide) (by decide)
  exact ⟨h.2.1 (s2l "python"), h.2.2⟩

/-! ## Claim C8 -/

/-- C8: `generate_job_recommendations` always returns the three fixed
baseline recommendations first, in fixed order, then appends in this
exact order: the skills-overlap line naming the top 3 found skills iff
any skills were found; the Agile line iff the job text contains "agile"
or "scrum" case-insensitively; the leadership line iff it contains
"lead" or "senior" case-insensitively. -/
theorem generate_job_recommendations_spec (jd : Str) (found_skills : List Str) :
    generate_job_recommendations jd found_skills =
      [recBase1, recBase2, recBase3]
        ++ (if found_skills ≠ [] then [recSkillsLine found_skills] else [])
        ++ (if containsSub (s2l "agile") (lowerStr jd) = true
              ∨ containsSub (s2l "scrum") (lowerStr jd) = true then [recAgileLine] else [])
        ++ (if containsSub (s2l "lead") (lowerStr jd) = true
              ∨ containsSub (s2l "senior") (lowerStr jd) = true then [recLeadLine] else []) := by
  by_cases h1 : found_skills = [] <;>
    by_cases h2 : containsSub (s2l "agile") (lowerStr jd) = true
      ∨ containsSub (s2l "scrum") (lowerStr jd) = true <;>
    by_cases h3 : containsSub (s2l "lead") (lowerStr jd) = true
      ∨ containsSub (s2l "senior") (lowerStr jd) = true <;>
    simp_all [generate_job_recommendations, List.isEmpty_iff, Bool.or_eq_true, not_or]

/-! ## Claim C9 -/

/-- C9: `generate_improvement_suggestions` produces, in this fixed
order, the missing-skills suggestion (naming the first 3 missing job
skills) iff some job skill is absent from the candidate's skills
case-insensitively, the add-more-projects suggestion iff the candidate
has fewer than 2 projects, and the add-a-summary suggestion iff the
candidate's `about` is blank — hence never more than 4 (indeed 3)
items despite the final `[:4]` truncation. -/
theorem generate_improvement_suggestions_spec (env : Env) (jd : Str) (resume : Candidate) :
    generate_improvement_suggestions env jd resume =
      (if missing_skills_of (extract_skills_from_text env jd) resume.skills ≠ [] then
          [sugSkillsLine (missing_skills_of (extract_skills_from_text env jd) resume.skills)]
        else [])
      ++ (if resume.projects.length < 2 then [sugProjectsLine] else [])
      ++ (if isBlank resume.about = true then [sugSummaryLine] else []) ∧
    (generate_improvement_suggestions env jd resume).length ≤ 4 := by
  have hmain : generate_improvement_suggestions env jd resume =
      (if missing_skills_of (extract_skills_from_text env jd) resume.skills ≠ [] then
          [sugSkillsLine (missing_skills_of (extract_skills_from_text env jd) resume.skills)]
        else [])
      ++ (if resume.projects.length < 2 then [sugProjectsLine] else [])
      ++ (if isBlank resume.about = true then [sugSummaryLine] else []) := by
    by_cases h1 : missing_skills_of (extract_skills_from_text env jd) resume.skills = [] <;>
      by_cases h2 : resume.projects.length < 2 <;>
      by_cases h3 : isBlank resume.about = true <;>
      simp [generate_improvement_suggestions, List.isEmpty_iff, List.isEmpty_eq_false,
        h1, h2, h3]
  refine ⟨hmain, ?_⟩
  rw [hmain]
  split_ifs <;> simp

/-! ## Claim C10 -/

theorem length_filter_partition (p : Str → Bool) (l : List Str) :
    (l.filter p).length + (l.filter fun s => !p s).length = l.length := by
  induction l with
  | nil => rfl
  | cons x xs ih =>
    by_cases hx : p x = true
    · simp only [List.filter_cons, hx, Bool.not_true, if_true]
      simp only [Bool.false_eq_true, if_false, List.length_cons]
      omega
    · have hx' : p x = false := by simpa using hx
      simp only [List.filter_cons, hx', Bool.not_false, Bool.false_eq_true, if_false, if_true,
        List.length_cons]
      omega

/-- C10: in `match_resume_to_job`, the matched-skills list and the
missing-skills list taken before its `[:5]` truncation partition the
extracted job skills: each extracted job skill is in exactly one of the
two, both are sublists of the job-skill list (so preserve its order),
their lengths sum to it, and the view's success payload carries exactly
these lists (the missing one truncated to 5). -/
theorem match_skills_partition (env : Env) (data : MatchReq) (resume : Candidate)
    (h1 : data.job_description ≠ []) (h2 : data.resume_data = some resume) :
    (∀ s ∈ extract_skills_from_text env data.job_description,
      (s ∈ matched_skills_of (extract_skills_from_text env data.job_description) resume.skills
        ↔ s ∉ missing_skills_of (extract_skills_from_text env data.job_description)
            resume.skills)) ∧
    List.Sublist
      (matched_skills_of (extract_skills_from_text env data.job_description) resume.skills)
      (extract_skills_from_text env data.job_description) ∧
    List.Sublist
      (missing_skills_of (extract_skills_from_text env data.job_description) resume.skills)
      (extract_skills_from_text env data.job_description) ∧
    (matched_skills_of (extract_skills_from_text env data.job_description) resume.skills).length
      + (missing_skills_of (extract_skills_from_text env data.job_description)
          resume.skills).length
      = (extract_skills_from_text env data.job_description).length ∧
    ∃ out, match_resume_to_job env true (.ok data) = .ok out ∧
      out.matched_skills =
        matched_skills_of (extract_skills_from_text env data.job_description) resume.skills ∧
      out.missing_skills =
        (missing_skills_of (extract_skills_from_text env data.job_description)
          resume.skills).take 5 := by
  refine ⟨?_, List.filter_sublist _, List.filter_sublist _, ?_, ?_⟩
  · intro s hs
    simp only [matched_skills_of, missing_skills_of, List.mem_filter, hs, true_and]
    cases hp : (resume.skills.map lowerStr).contains (lowerStr s) <;> simp [hp]
  · exact length_filter_partition _ _
  · have hview : match_resume_to_job env true (.ok data) = .ok
        { match_score := pyRound (compute_similarity_score env data.job_description resume * 100) 2,
          matched_skills := matched_skills_of (extract_skills_from_text env data.job_description) resume.skills,
          missing_skills := (missing_skills_of (extract_skills_from_text env data.job_description) resume.skills).take 5,
          improvement_suggestions := generate_improvement_suggestions env data.job_description resume } := by
      rw [match_resume_to_job]
      simp only [Bool.not_true, Bool.false_eq_true, if_false]
      rw [if_neg (by simp [h1]), h2]
    exact ⟨_, hview, rfl, rfl⟩

/-- Witness for C10: the partition length identity at a concrete
environment, request and resume. -/
theorem match_skills_partition_witness :
    (matched_skills_of (extract_skills_from_text env0 (s2l "python and java"))
        candW.skills).length
      + (missing_skills_of (extract_skills_from_text env0 (s2l "python and java"))
          candW.skills).length
      = (extract_skills_from_text env0 (s2l "python and java")).length :=
  (match_skills_partition env0 ⟨s2l "python and java", some candW⟩ candW
    (by decide) rfl).2.2.2.1

/-! ## Claim C3 -/

/-- C3: the two environments `env0` and `envRev` are both admissible
models of CPython's `list(set(xs))` (their enumerations are
duplicate-free and preserve membership), yet `extract_skills_from_text`
returns its skills in different orders under them, and under `envRev`
the order is not the canonical vocabulary order — the output order is an
artefact of the set enumeration, which CPython randomises per process,
not a property the code determines. -/
theorem extract_skills_order_not_canonical :
    (∀ l : List Str, (env0.setList l).Nodup ∧ ∀ a, a ∈ env0.setList l ↔ a ∈ l) ∧
    (∀ l : List Str, (envRev.setList l).Nodup ∧ ∀ a, a ∈ envRev.setList l ↔ a ∈ l) ∧
    extract_skills_from_text envRev (s2l "python and java developer") ≠
      skill_keywords.filter
        (fun sk => containsSub (lowerStr sk) (lowerStr (s2l "python and java developer"))) ∧
    extract_skills_from_text envRev (s2l "python and java developer") ≠
      extract_skills_from_text env0 (s2l "python and java developer") := by
  refine ⟨fun l => ⟨List.nodup_dedup l, fun a => List.mem_dedup⟩,
    fun l => ⟨show (l.dedup.reverse).Nodup from List.nodup_reverse.2 (List.nodup_dedup l),
      fun a => by
        show a ∈ l.dedup.reverse ↔ a ∈ l
        rw [List.mem_reverse]
        exact List.mem_dedup⟩, ?_, ?_⟩
  · decide
  · decide

end ResumeMatch
